import Mathlib

/-!
Verification of the Sleep-or-Cram recommendation engine.

This file is a shallow embedding of the computational core of
`src/sleep-or-cram.tsx`: the function `calculateRecommendation` together
with its helpers `parseTime`, `getCramBenefit` and `getSleepBenefit`.
The presentation layer (React state, form widgets, styling) is out of
scope, exactly as the design document states.

Conventions of the embedding:
* all numeric quantities are rational numbers `ℚ` (the JavaScript values
  involved are small decimal fractions, computed exactly here);
* JavaScript `Math.round` is `jsRound` (`⌊x + 1/2⌋`, which matches the
  JS behaviour of rounding halves toward positive infinity);
* JavaScript `Math.floor` is `Int.floor`, `Math.max`/`Math.min` are
  `max`/`min`;
* a wall-clock `HH:MM` value is a `TimeHM`; `parseTime` converts it to
  fractional hours since midnight as the source does;
* the component state read by `calculateRecommendation` (`currentTime`,
  `examTime`, `hoursStudied`, `confidence`, `quizAnswers.q1..q3`) is the
  `Input` structure; the `Result` structure mirrors the source's
  `Result` interface field by field, including the template strings.
-/

namespace SleepOrCram

/-- JavaScript `Math.round`: nearest integer, halves toward positive
infinity (`Math.round x = ⌊x + 0.5⌋` for every real `x`). -/
def jsRound (x : ℚ) : ℤ := ⌊x + 1/2⌋

/-- A wall-clock time as produced by an `HH:MM` time input field. -/
structure TimeHM where
  hours : ℕ
  minutes : ℕ
deriving DecidableEq, Repr

/-- A valid `HH:MM` string: hours `00`–`23`, minutes `00`–`59`. -/
def ValidTime (t : TimeHM) : Prop := t.hours ≤ 23 ∧ t.minutes ≤ 59

instance (t : TimeHM) : Decidable (ValidTime t) := by
  unfold ValidTime; infer_instance

/-- Source `parseTime` (lines 172–175): split `HH:MM` and return
`hours + minutes / 60` as fractional hours since midnight. -/
def parseTime (t : TimeHM) : ℚ := (t.hours : ℚ) + (t.minutes : ℚ) / 60

/-- The five pieces of component state read by `calculateRecommendation`. -/
structure Input where
  currentTime : TimeHM
  examTime : TimeHM
  hoursStudied : ℚ
  confidence : ℚ
  q1 : ℚ
  q2 : ℚ
  q3 : ℚ
deriving DecidableEq, Repr

/-- The two possible values of the source's `decision` field
(`'sleep' | 'strategic-cram'`). -/
inductive Decision where
  | sleep
  | strategicCram
deriving DecidableEq, Repr

/-- The source's `Result` interface (lines 4–19). -/
structure Result where
  decision : Decision
  reasoning : String
  projectedBoost : ℤ
  actionPlan : List String
  scienceNote : String
  availableHours : ℚ
  effectiveStudyHours : ℚ
  cognitiveState : ℤ
  adjustedConfidence : ℤ
  boostS1 : ℤ
  boostS2 : ℤ
  sleepBenefitS1 : ℤ
  cramBenefitS2 : ℤ
  sleepBenefitS2 : ℤ
deriving DecidableEq, Repr

/-- Source constant `minSleepNeeded = 6` (line 43). -/
def minSleepNeeded : ℚ := 6

/-- Source constant `optimalSleep = 8` (line 44). -/
def optimalSleep : ℚ := 8

/-- Source constant `maxProductiveStudy = 3` (line 45). -/
def maxProductiveStudy : ℚ := 3

/-- Source lines 32–35: `finalConfidence = Math.round(0.7 * (q1+q2+q3)
+ 0.3 * confidence)` — the three quiz answers are summed, not averaged,
and the result is not clamped. -/
def finalConfidence (inp : Input) : ℤ :=
  jsRound (0.7 * (inp.q1 + inp.q2 + inp.q3) + 0.3 * inp.confidence)

/-- Source lines 40–41: `availableHours = exam - now`, plus 24 when
negative (overnight wrap-around). -/
def availableHours (inp : Input) : ℚ :=
  if parseTime inp.examTime - parseTime inp.currentTime < 0 then
    parseTime inp.examTime - parseTime inp.currentTime + 24
  else
    parseTime inp.examTime - parseTime inp.currentTime

/-- Source line 49: `isLateNight = now >= 22 || now <= 4`. -/
def isLateNight (inp : Input) : Prop :=
  parseTime inp.currentTime ≥ 22 ∨ parseTime inp.currentTime ≤ 4

instance (inp : Input) : Decidable (isLateNight inp) := by
  unfold isLateNight; infer_instance

/-- Source line 51: the fatigue factor drops to 0.6 after 2.5 hours of
study and to 0.4 after 4 hours. -/
def fatigueFactor (inp : Input) : ℚ :=
  if inp.hoursStudied ≥ 4 then 0.4
  else if inp.hoursStudied ≥ 2.5 then 0.6
  else 1.0

/-- Source line 53: late-night encoding is halved. -/
def timeFactor (inp : Input) : ℚ := if isLateNight inp then 0.5 else 1.0

/-- Source line 54: `cognitiveStateFactor = fatigueFactor * timeFactor`. -/
def cognitiveStateFactor (inp : Input) : ℚ := fatigueFactor inp * timeFactor inp

/-- The tiered base accumulation of `getCramBenefit` (source lines
62–65): 20 points for the first hour reached, +12 for the second, +8 for
the third. -/
def cramBase (hours : ℚ) : ℚ :=
  (if hours ≥ 1 then 20 else 0) +
  (if hours ≥ 2 then 12 else 0) +
  (if hours ≥ 3 then 8 else 0)

/-- Source `getCramBenefit` (lines 61–76): the tiered base is multiplied
by the captured `cognitiveStateFactor`, then by 1.25 when
`lowConfidence` (`finalConfidence ≤ 35`, checked first) or 0.75 when
`highConfidence` (`finalConfidence ≥ 75`).  The captured closure
variables are passed explicitly here. -/
def getCramBenefit (cognitiveState : ℚ) (finalConf : ℤ) (hours : ℚ) : ℚ :=
  if finalConf ≤ 35 then cramBase hours * cognitiveState * 1.25
  else if finalConf ≥ 75 then cramBase hours * cognitiveState * 0.75
  else cramBase hours * cognitiveState

/-- Source `getSleepBenefit` (lines 79–85): 25 for at least 8 hours, 15
for at least 6, 5 for at least 4, −25 for a positive amount below 4,
−40 otherwise (no sleep at all). -/
def getSleepBenefit (sleepHours : ℚ) : ℚ :=
  if sleepHours ≥ optimalSleep then 25
  else if sleepHours ≥ minSleepNeeded then 15
  else if sleepHours ≥ 4 then 5
  else if sleepHours > 0 then -25
  else -40

/-- Source line 91: Scenario 1 (Max Sleep) reserves 1 hour,
`sleepHoursS1 = max(0, availableHours - 1)`. -/
def sleepHoursS1 (inp : Input) : ℚ := max 0 (availableHours inp - 1)

/-- Source line 92: `boostS1 = getSleepBenefit(sleepHoursS1)`. -/
def boostS1 (inp : Input) : ℚ := getSleepBenefit (sleepHoursS1 inp)

/-- Source lines 96–99: Scenario 2 study time,
`min(maxProductiveStudy, max(0, availableHours - minSleepNeeded - 1))`. -/
def studyHoursS2 (inp : Input) : ℚ :=
  min maxProductiveStudy (max 0 (availableHours inp - minSleepNeeded - 1))

/-- Source line 100: `sleepHoursS2 = max(0, availableHours - studyHoursS2 - 1)`. -/
def sleepHoursS2 (inp : Input) : ℚ :=
  max 0 (availableHours inp - studyHoursS2 inp - 1)

/-- Source line 102: `cramBenefitS2 = getCramBenefit(studyHoursS2)`. -/
def cramBenefitS2 (inp : Input) : ℚ :=
  getCramBenefit (cognitiveStateFactor inp) (finalConfidence inp) (studyHoursS2 inp)

/-- Source line 103: `sleepBenefitS2 = getSleepBenefit(sleepHoursS2)`. -/
def sleepBenefitS2 (inp : Input) : ℚ :=
  getSleepBenefit (sleepHoursS2 inp)

/-- Source line 104: `boostS2 = cramBenefitS2 + sleepBenefitS2`. -/
def boostS2 (inp : Input) : ℚ := cramBenefitS2 inp + sleepBenefitS2 inp

/-- JS template-literal rendering of the nonnegative one-decimal values
`finalStudy` and `finalSleep` (source lines 139–140, 143, 145): an
integer prints without a decimal point, any other one-decimal value
prints with its single decimal digit. -/
def oneDecimalToString (x : ℚ) : String :=
  if x.den = 1 then toString x.num
  else toString ⌊x⌋ ++ "." ++ toString ((⌊x * 10⌋ - 10 * ⌊x⌋).natAbs)

/-- Source `calculateRecommendation` (lines 30–170): computes the
derived quantities above, chooses the scenario by the decision rule of
line 113, and assembles the `Result` record of lines 152–167 (the
per-branch `reasoning`, `actionPlan` and `scienceNote` templates are
those of lines 118–148). -/
def calculateRecommendation (inp : Input) : Result :=
  if availableHours inp < 5 ∨ (boostS1 inp > boostS2 inp ∧ sleepHoursS1 inp ≥ 6) then
    { decision := Decision.sleep
      reasoning :=
        if availableHours inp < 5 then
          "You have very limited time. Sleep deprivation will hurt you more than cramming will help."
        else
          "Maximizing sleep yields the highest projected score boost. Your knowledge is best consolidated now."
      projectedBoost := jsRound (max 0 (boostS1 inp))
      actionPlan :=
        if availableHours inp < 5 then
          ["Go to sleep right now.",
           "Focus on getting maximum rest.",
           "Quick review of key formulas/concepts when you wake up."]
        else
          ["Sleep " ++ toString ⌊sleepHoursS1 inp⌋ ++ " hours minimum.",
           "Limit screen time 30 mins before bed.",
           "Light, focused review in the morning."]
      scienceNote :=
        if availableHours inp < 5 then
          "With less than 5 hours, your brain needs rest more than new information. Sleep consolidates what you already know."
        else
          "The consolidation benefit of " ++ toString ⌊sleepHoursS1 inp⌋ ++
            " hours of sleep (Boost: +" ++
            toString (jsRound (getSleepBenefit (sleepHoursS1 inp))) ++
            "%) outweighs the minimal gain from more studying."
      availableHours := (⌊availableHours inp * 10⌋ : ℚ) / 10
      effectiveStudyHours := (⌊(0 : ℚ) * 10⌋ : ℚ) / 10
      cognitiveState := jsRound (cognitiveStateFactor inp * 100)
      adjustedConfidence := finalConfidence inp
      boostS1 := jsRound (boostS1 inp)
      boostS2 := jsRound (boostS2 inp)
      sleepBenefitS1 := jsRound (getSleepBenefit (sleepHoursS1 inp))
      cramBenefitS2 := jsRound (cramBenefitS2 inp)
      sleepBenefitS2 := jsRound (sleepBenefitS2 inp) }
  else
    { decision := Decision.strategicCram
      reasoning :=
        "The Strategic Split maximizes your net gain by balancing crucial rest and targeted study."
      projectedBoost := jsRound (max 0 (boostS2 inp))
      actionPlan :=
        ["Study for " ++ oneDecimalToString ((⌊studyHoursS2 inp * 10⌋ : ℚ) / 10) ++
           " hours. Focus ONLY on high-value/low-confidence topics.",
         "Use active recall (practice problems, flashcards), not just reading.",
         "Sleep " ++ oneDecimalToString ((⌊sleepHoursS2 inp * 10⌋ : ℚ) / 10) ++
           " hours minimum.",
         "Wake up early for quick review and proper breakfast."]
      scienceNote :=
        "Your current cognitive state is at " ++
          toString (jsRound (cognitiveStateFactor inp * 100)) ++
          "%. Focused encoding now (Boost: +" ++
          toString (jsRound (cramBenefitS2 inp)) ++
          "%) combined with consolidation (Boost: +" ++
          toString (jsRound (sleepBenefitS2 inp)) ++
          "%) provides the optimal strategy."
      availableHours := (⌊availableHours inp * 10⌋ : ℚ) / 10
      effectiveStudyHours := (⌊studyHoursS2 inp * 10⌋ : ℚ) / 10
      cognitiveState := jsRound (cognitiveStateFactor inp * 100)
      adjustedConfidence := finalConfidence inp
      boostS1 := jsRound (boostS1 inp)
      boostS2 := jsRound (boostS2 inp)
      sleepBenefitS1 := jsRound (getSleepBenefit (sleepHoursS1 inp))
      cramBenefitS2 := jsRound (cramBenefitS2 inp)
      sleepBenefitS2 := jsRound (sleepBenefitS2 inp) }

/-- The worked example of the design document: current time 22:00, exam
at 09:00, no study yet, slider at 50, all three quiz answers 0. -/
def exLateEvening : Input :=
  { currentTime := ⟨22, 0⟩, examTime := ⟨9, 0⟩, hoursStudied := 0,
    confidence := 50, q1 := 0, q2 := 0, q3 := 0 }

/-- A short-night input: current time 05:00, exam at 09:00 (4 available
hours, below the 5-hour cutoff). -/
def exShortNight : Input :=
  { currentTime := ⟨5, 0⟩, examTime := ⟨9, 0⟩, hoursStudied := 0,
    confidence := 50, q1 := 0, q2 := 0, q3 := 0 }

/-- The wrap-around example: current time 23:00, exam at 01:00. -/
def exWrap : Input :=
  { currentTime := ⟨23, 0⟩, examTime := ⟨1, 0⟩, hoursStudied := 0,
    confidence := 50, q1 := 0, q2 := 0, q3 := 0 }

/-- Every quiz answer and the slider at 100: the unclamped confidence
blend reaches 240. -/
def exMaxConfidence : Input :=
  { currentTime := ⟨22, 0⟩, examTime := ⟨9, 0⟩, hoursStudied := 0,
    confidence := 100, q1 := 100, q2 := 100, q3 := 100 }

/-- An input on which Max Sleep wins with 9 hours available: heavy
fatigue (5 hours studied) and late night make cramming nearly
worthless, so the sleep branch of line 113 is taken with
`availableHours ≥ 5`. -/
def exFatigued : Input :=
  { currentTime := ⟨23, 0⟩, examTime := ⟨8, 0⟩, hoursStudied := 5,
    confidence := 50, q1 := 0, q2 := 33, q3 := 33 }

/-! ## General lemmas about the embedded code -/

theorem jsRound_nonneg (x : ℚ) (h : 0 ≤ x) : 0 ≤ jsRound x := by
  rw [jsRound]
  exact Int.le_floor.mpr (by push_cast; linarith)

theorem parseTime_nonneg (t : TimeHM) : 0 ≤ parseTime t := by
  rw [parseTime]; positivity

theorem parseTime_lt_of_valid (t : TimeHM) (h : ValidTime t) : parseTime t < 24 := by
  obtain ⟨h1, h2⟩ := h
  have hh : (t.hours : ℚ) ≤ 23 := by exact_mod_cast h1
  have hm : (t.minutes : ℚ) ≤ 59 := by exact_mod_cast h2
  rw [parseTime]
  linarith

/-- The decision field records exactly the outcome of the line-113 test. -/
theorem decision_sleep_iff (inp : Input) :
    (calculateRecommendation inp).decision = Decision.sleep ↔
      (availableHours inp < 5 ∨ (boostS1 inp > boostS2 inp ∧ sleepHoursS1 inp ≥ 6)) := by
  by_cases h : availableHours inp < 5 ∨ (boostS1 inp > boostS2 inp ∧ sleepHoursS1 inp ≥ 6)
  · rw [calculateRecommendation, if_pos h]
    exact iff_of_true rfl h
  · rw [calculateRecommendation, if_neg h]
    exact iff_of_false (by simp) h

theorem studyHoursS2_nonneg (inp : Input) : 0 ≤ studyHoursS2 inp := by
  rw [studyHoursS2]
  exact le_min (by norm_num [maxProductiveStudy]) (le_max_left _ _)

theorem studyHoursS2_le_three (inp : Input) : studyHoursS2 inp ≤ 3 := by
  simp only [studyHoursS2, maxProductiveStudy]
  exact min_le_left _ _

theorem getSleepBenefit_of_ge_six (x : ℚ) (h : 6 ≤ x) :
    getSleepBenefit x = 15 ∨ getSleepBenefit x = 25 := by
  simp only [getSleepBenefit, optimalSleep, minSleepNeeded]
  split_ifs <;> norm_num

/-! ## Concrete evaluations of the example inputs -/

theorem exLateEvening_not_cond :
    ¬(availableHours exLateEvening < 5 ∨
      (boostS1 exLateEvening > boostS2 exLateEvening ∧ sleepHoursS1 exLateEvening ≥ 6)) := by
  norm_num [availableHours, parseTime, boostS1, boostS2, sleepHoursS1, sleepHoursS2, studyHoursS2,
    getSleepBenefit, cramBenefitS2, sleepBenefitS2, getCramBenefit, cramBase, cognitiveStateFactor,
    fatigueFactor, timeFactor, isLateNight, finalConfidence, jsRound,
    optimalSleep, minSleepNeeded, maxProductiveStudy, exLateEvening]

theorem exLateEvening_decision :
    (calculateRecommendation exLateEvening).decision = Decision.strategicCram := by
  rw [calculateRecommendation, if_neg exLateEvening_not_cond]

theorem exShortNight_cond : availableHours exShortNight < 5 := by
  norm_num [availableHours, parseTime, exShortNight]

theorem exShortNight_decision :
    (calculateRecommendation exShortNight).decision = Decision.sleep := by
  rw [calculateRecommendation, if_pos (Or.inl exShortNight_cond)]

theorem exFatigued_cond :
    availableHours exFatigued < 5 ∨
      (boostS1 exFatigued > boostS2 exFatigued ∧ sleepHoursS1 exFatigued ≥ 6) := by
  norm_num [availableHours, parseTime, boostS1, boostS2, sleepHoursS1, sleepHoursS2, studyHoursS2,
    getSleepBenefit, cramBenefitS2, sleepBenefitS2, getCramBenefit, cramBase, cognitiveStateFactor,
    fatigueFactor, timeFactor, isLateNight, finalConfidence, jsRound,
    optimalSleep, minSleepNeeded, maxProductiveStudy, exFatigued]

theorem exFatigued_avail : 5 ≤ availableHours exFatigued := by
  norm_num [availableHours, parseTime, exFatigued]

theorem exFatigued_decision :
    (calculateRecommendation exFatigued).decision = Decision.sleep := by
  rw [calculateRecommendation, if_pos exFatigued_cond]

/-! ## The claims -/

/-- C1: for every input, the decision is Sleep iff `availableHours < 5`
or (`boostS1 > boostS2` and `sleepHoursS1 ≥ 6`); in every other case the
decision is StrategicCram; and `availableHours < 5` alone forces Sleep
regardless of the remaining inputs. -/
theorem decision_rule_c1 (inp : Input) :
    ((calculateRecommendation inp).decision = Decision.sleep ↔
      (availableHours inp < 5 ∨ (boostS1 inp > boostS2 inp ∧ sleepHoursS1 inp ≥ 6))) ∧
    ((calculateRecommendation inp).decision = Decision.strategicCram ↔
      ¬(availableHours inp < 5 ∨ (boostS1 inp > boostS2 inp ∧ sleepHoursS1 inp ≥ 6))) ∧
    (availableHours inp < 5 → (calculateRecommendation inp).decision = Decision.sleep) := by
  refine ⟨decision_sleep_iff inp, ?_, fun h => (decision_sleep_iff inp).mpr (Or.inl h)⟩
  by_cases h : availableHours inp < 5 ∨ (boostS1 inp > boostS2 inp ∧ sleepHoursS1 inp ≥ 6)
  · rw [calculateRecommendation, if_pos h]
    exact iff_of_false (by simp) (not_not_intro h)
  · rw [calculateRecommendation, if_neg h]
    exact iff_of_true rfl h

/-- Witness for C1 at the 05:00 → 09:00 input (4 available hours). -/
theorem decision_rule_c1_witness :
    (calculateRecommendation exShortNight).decision = Decision.sleep :=
  (decision_rule_c1 exShortNight).2.2 exShortNight_cond

/-- C2: the end-to-end worked example — current time 22:00, exam 09:00,
0 hours studied, slider 50, quiz answers all 0 — produces exactly the
intermediate values of the design document and decision StrategicCram
with projected boost 40. -/
theorem worked_example_c2 :
    finalConfidence exLateEvening = 15 ∧
    availableHours exLateEvening = 11 ∧
    cognitiveStateFactor exLateEvening = 0.5 ∧
    studyHoursS2 exLateEvening = 3 ∧
    cramBenefitS2 exLateEvening = 25 ∧
    sleepHoursS2 exLateEvening = 7 ∧
    sleepBenefitS2 exLateEvening = 15 ∧
    boostS2 exLateEvening = 40 ∧
    sleepHoursS1 exLateEvening = 10 ∧
    boostS1 exLateEvening = 25 ∧
    (calculateRecommendation exLateEvening).decision = Decision.strategicCram ∧
    (calculateRecommendation exLateEvening).projectedBoost = 40 := by
  refine ⟨?_, ?_, ?_, ?_, ?_, ?_, ?_, ?_, ?_, ?_, exLateEvening_decision, ?_⟩ <;>
  first
  | rw [calculateRecommendation, if_neg exLateEvening_not_cond]
    norm_num [boostS2, jsRound, cramBenefitS2, sleepBenefitS2, getCramBenefit, cramBase,
      getSleepBenefit, sleepHoursS2, studyHoursS2, cognitiveStateFactor, fatigueFactor,
      timeFactor, isLateNight, finalConfidence, availableHours, parseTime,
      optimalSleep, minSleepNeeded, maxProductiveStudy, exLateEvening]
  | norm_num [availableHours, parseTime, boostS1, boostS2, sleepHoursS1, sleepHoursS2,
      studyHoursS2, getSleepBenefit, cramBenefitS2, sleepBenefitS2, getCramBenefit, cramBase,
      cognitiveStateFactor, fatigueFactor, timeFactor, isLateNight, finalConfidence, jsRound,
      optimalSleep, minSleepNeeded, maxProductiveStudy, exLateEvening]

/-- C3: for every input the reported `projectedBoost` is nonnegative and
equals the chosen scenario's boost clamped below at 0 and rounded to the
nearest integer (`Math.round(Math.max(0, boost))`). -/
theorem projected_boost_c3 (inp : Input) :
    0 ≤ (calculateRecommendation inp).projectedBoost ∧
      (calculateRecommendation inp).projectedBoost =
        jsRound (max 0 (if (calculateRecommendation inp).decision = Decision.sleep
          then boostS1 inp else boostS2 inp)) := by
  by_cases h : availableHours inp < 5 ∨ (boostS1 inp > boostS2 inp ∧ sleepHoursS1 inp ≥ 6)
  · rw [calculateRecommendation, if_pos h]
    exact ⟨jsRound_nonneg _ (le_max_left _ _), by simp⟩
  · rw [calculateRecommendation, if_neg h]
    exact ⟨jsRound_nonneg _ (le_max_left _ _), by simp⟩

/-- C4: the exact breakpoints of `getSleepBenefit`: 25 from 8 hours up,
15 on [6,8), 5 on [4,6), −25 on (0,4), −40 at 0. -/
theorem sleep_benefit_breakpoints_c4 (h : ℚ) :
    (8 ≤ h → getSleepBenefit h = 25) ∧
    (6 ≤ h → h < 8 → getSleepBenefit h = 15) ∧
    (4 ≤ h → h < 6 → getSleepBenefit h = 5) ∧
    (0 < h → h < 4 → getSleepBenefit h = -25) ∧
    (h = 0 → getSleepBenefit h = -40) := by
  simp only [getSleepBenefit, optimalSleep, minSleepNeeded]
  refine ⟨fun h1 => ?_, fun h1 h2 => ?_, fun h1 h2 => ?_, fun h1 h2 => ?_, fun h1 => ?_⟩ <;>
    split_ifs <;> first | rfl | linarith

/-- Witness for C4 at the concrete breakpoints 8, 6, 4, 3.9 and 0. -/
theorem sleep_benefit_breakpoints_c4_witness :
    getSleepBenefit 8 = 25 ∧ getSleepBenefit 6 = 15 ∧ getSleepBenefit 4 = 5 ∧
      getSleepBenefit (39/10) = -25 ∧ getSleepBenefit 0 = -40 :=
  ⟨(sleep_benefit_breakpoints_c4 8).1 (by norm_num),
   (sleep_benefit_breakpoints_c4 6).2.1 (by norm_num) (by norm_num),
   (sleep_benefit_breakpoints_c4 4).2.2.1 (by norm_num) (by norm_num),
   (sleep_benefit_breakpoints_c4 (39/10)).2.2.2.1 (by norm_num) (by norm_num),
   (sleep_benefit_breakpoints_c4 0).2.2.2.2 rfl⟩

/-- C5: for valid HH:MM times, `availableHours` lies in [0,24), and the
wrap-around example 23:00 → 01:00 gives exactly 2 hours. -/
theorem available_hours_range_c5 :
    (∀ inp : Input, ValidTime inp.currentTime → ValidTime inp.examTime →
      0 ≤ availableHours inp ∧ availableHours inp < 24) ∧
    availableHours exWrap = 2 := by
  constructor
  · intro inp hc he
    have h1 := parseTime_nonneg inp.currentTime
    have h2 := parseTime_nonneg inp.examTime
    have h3 := parseTime_lt_of_valid inp.currentTime hc
    have h4 := parseTime_lt_of_valid inp.examTime he
    rw [availableHours]
    by_cases h : parseTime inp.examTime - parseTime inp.currentTime < 0
    · rw [if_pos h]
      constructor <;> linarith
    · rw [if_neg h]
      push_neg at h
      constructor <;> linarith
  · norm_num [availableHours, parseTime, exWrap]

/-- Witness for C5 at the wrap-around input 23:00 → 01:00. -/
theorem available_hours_range_c5_witness :
    ValidTime exWrap.currentTime ∧ ValidTime exWrap.examTime ∧
      (0 ≤ availableHours exWrap ∧ availableHours exWrap < 24) :=
  ⟨by decide, by decide,
    available_hours_range_c5.1 exWrap (by decide) (by decide)⟩

/-- C6 counterexample: at 0 study hours the tiered base is 0, so the
cram benefit is 0 under every confidence multiplier — high confidence is
then not strictly below neutral, nor neutral strictly below low. -/
theorem cram_confidence_c6_counterexample :
    getCramBenefit 0.5 80 0 = getCramBenefit 0.5 50 0 ∧
      ¬ getCramBenefit 0.5 80 0 < getCramBenefit 0.5 50 0 ∧
      ¬ getCramBenefit 0.5 50 0 < getCramBenefit 0.5 20 0 := by
  norm_num [getCramBenefit, cramBase]

/-- C6 (amended): with at least one study hour (so the tiered base is
positive) and a positive cognitive-state factor, high confidence
(≥ 75) gives a strictly smaller cram benefit than neutral confidence
(in (35,75)), and neutral strictly smaller than low (≤ 35). -/
theorem cram_confidence_c6 (cs hours : ℚ) (hcs : 0 < cs) (hh : 1 ≤ hours)
    (chi cneu clo : ℤ) (hchi : 75 ≤ chi) (hneu1 : 35 < cneu) (hneu2 : cneu < 75)
    (hclo : clo ≤ 35) :
    getCramBenefit cs chi hours < getCramBenefit cs cneu hours ∧
      getCramBenefit cs cneu hours < getCramBenefit cs clo hours := by
  have hb : (20 : ℚ) ≤ cramBase hours := by
    rw [cramBase]
    split_ifs <;> linarith
  have hbc : 0 < cramBase hours * cs :=
    mul_pos (lt_of_lt_of_le (by norm_num) hb) hcs
  have e1 : getCramBenefit cs chi hours = cramBase hours * cs * 0.75 := by
    rw [getCramBenefit, if_neg (by omega), if_pos (by omega)]
  have e2 : getCramBenefit cs cneu hours = cramBase hours * cs := by
    rw [getCramBenefit, if_neg (by omega), if_neg (by omega)]
  have e3 : getCramBenefit cs clo hours = cramBase hours * cs * 1.25 := by
    rw [getCramBenefit, if_pos (by omega)]
  rw [e1, e2, e3]
  constructor <;> nlinarith [hbc]

/-- Witness for the amended C6 at one study hour, factor 0.5, and
confidences 80 / 50 / 20. -/
theorem cram_confidence_c6_witness :
    getCramBenefit 0.5 80 1 < getCramBenefit 0.5 50 1 ∧
      getCramBenefit 0.5 50 1 < getCramBenefit 0.5 20 1 :=
  cram_confidence_c6 0.5 1 (by norm_num) (by norm_num) 80 50 20
    (by norm_num) (by norm_num) (by norm_num) (by norm_num)

/-- C7: the reported `adjustedConfidence` is
`round(0.7 * (q1+q2+q3) + 0.3 * slider)` — quiz answers summed, not
averaged, and unclamped: all answers and the slider at 100 give 240,
strictly above 100. -/
theorem confidence_blend_c7 :
    (∀ inp : Input, (calculateRecommendation inp).adjustedConfidence =
      jsRound (0.7 * (inp.q1 + inp.q2 + inp.q3) + 0.3 * inp.confidence)) ∧
    (calculateRecommendation exMaxConfidence).adjustedConfidence = 240 ∧
    100 < (calculateRecommendation exMaxConfidence).adjustedConfidence := by
  have key : ∀ inp : Input,
      (calculateRecommendation inp).adjustedConfidence = finalConfidence inp := by
    intro inp
    rw [calculateRecommendation]
    split <;> rfl
  refine ⟨fun inp => key inp, ?_, ?_⟩ <;>
    · rw [key]
      norm_num [finalConfidence, jsRound, exMaxConfidence]

/-- C8: the engine is a pure function of the five inputs — identical
inputs give identical Decision Records in every field. -/
theorem deterministic_c8 (inp₁ inp₂ : Input) (h : inp₁ = inp₂) :
    calculateRecommendation inp₁ = calculateRecommendation inp₂ := by
  rw [h]

/-- Witness for C8 at the worked-example input. -/
theorem deterministic_c8_witness :
    calculateRecommendation exLateEvening = calculateRecommendation exLateEvening :=
  deterministic_c8 exLateEvening exLateEvening rfl

/-- C9: on the Sleep branch the reported `effectiveStudyHours` is 0; on
the StrategicCram branch it is `studyHoursS2` truncated to one decimal
and lies in [0, 3]. -/
theorem effective_study_hours_c9 (inp : Input) :
    ((calculateRecommendation inp).decision = Decision.sleep →
      (calculateRecommendation inp).effectiveStudyHours = 0) ∧
    ((calculateRecommendation inp).decision = Decision.strategicCram →
      (calculateRecommendation inp).effectiveStudyHours =
          (⌊studyHoursS2 inp * 10⌋ : ℚ) / 10 ∧
        0 ≤ (calculateRecommendation inp).effectiveStudyHours ∧
        (calculateRecommendation inp).effectiveStudyHours ≤ 3) := by
  have h0 := studyHoursS2_nonneg inp
  have h3 := studyHoursS2_le_three inp
  have hfl : (⌊studyHoursS2 inp * 10⌋ : ℚ) ≤ studyHoursS2 inp * 10 := Int.floor_le _
  have hfg : (0 : ℚ) ≤ (⌊studyHoursS2 inp * 10⌋ : ℚ) := by
    have : (0 : ℤ) ≤ ⌊studyHoursS2 inp * 10⌋ := Int.le_floor.mpr (by push_cast; linarith)
    exact_mod_cast this
  by_cases h : availableHours inp < 5 ∨ (boostS1 inp > boostS2 inp ∧ sleepHoursS1 inp ≥ 6)
  · rw [calculateRecommendation, if_pos h]
    refine ⟨fun _ => by norm_num, fun hc => by simp at hc⟩
  · rw [calculateRecommendation, if_neg h]
    refine ⟨fun hc => by simp at hc, fun _ => ⟨rfl, by linarith, by linarith⟩⟩

/-- Witness for C9: the short-night input lands on the Sleep branch with
0 effective study hours, the worked example on the StrategicCram branch. -/
theorem effective_study_hours_c9_witness :
    (calculateRecommendation exShortNight).effectiveStudyHours = 0 ∧
    ((calculateRecommendation exLateEvening).effectiveStudyHours =
        (⌊studyHoursS2 exLateEvening * 10⌋ : ℚ) / 10 ∧
      0 ≤ (calculateRecommendation exLateEvening).effectiveStudyHours ∧
      (calculateRecommendation exLateEvening).effectiveStudyHours ≤ 3) :=
  ⟨(effective_study_hours_c9 exShortNight).1 exShortNight_decision,
   (effective_study_hours_c9 exLateEvening).2 exLateEvening_decision⟩

/-- C10: when at least 5 hours are available and the decision is still
Sleep (so the Max Sleep branch won on merit, with `sleepHoursS1 ≥ 6`),
the winning boost is at least 15, the `max(0,·)` clamp is the identity
on it, and the reported `projectedBoost` equals `boostS1` exactly. -/
theorem sleep_branch_boost_c10 (inp : Input) (h5 : 5 ≤ availableHours inp)
    (hs : (calculateRecommendation inp).decision = Decision.sleep) :
    15 ≤ boostS1 inp ∧ max 0 (boostS1 inp) = boostS1 inp ∧
      ((calculateRecommendation inp).projectedBoost : ℚ) = boostS1 inp := by
  have hcond := (decision_sleep_iff inp).mp hs
  have hb : boostS1 inp > boostS2 inp ∧ sleepHoursS1 inp ≥ 6 := by
    rcases hcond with h | h
    · linarith
    · exact h
  have hval : boostS1 inp = 15 ∨ boostS1 inp = 25 := by
    rw [boostS1]
    exact getSleepBenefit_of_ge_six _ hb.2
  have h15 : 15 ≤ boostS1 inp := by
    rcases hval with h | h <;> linarith
  refine ⟨h15, max_eq_right (by linarith), ?_⟩
  have hpb : (calculateRecommendation inp).projectedBoost = jsRound (max 0 (boostS1 inp)) := by
    rw [calculateRecommendation, if_pos hcond]
  rw [hpb, max_eq_right (by linarith : (0 : ℚ) ≤ boostS1 inp)]
  rcases hval with h | h <;> rw [h] <;> norm_num [jsRound]

/-- Witness for C10 at the fatigued late-night input with 9 available
hours, where Max Sleep wins on merit. -/
theorem sleep_branch_boost_c10_witness :
    5 ≤ availableHours exFatigued ∧
      (15 ≤ boostS1 exFatigued ∧ max 0 (boostS1 exFatigued) = boostS1 exFatigued ∧
        ((calculateRecommendation exFatigued).projectedBoost : ℚ) = boostS1 exFatigued) :=
  ⟨exFatigued_avail, sleep_branch_boost_c10 exFatigued exFatigued_avail exFatigued_decision⟩

end SleepOrCram
